import Mathlib

/-!
Shallow embedding of the NearbyConnect proximity-matching and
connection-lifecycle data layer.

Sources embedded here:
  * fix-database-function.sql — schema (profiles, user_locations,
    connection_requests, connections, messages, notifications), row-level
    security policies, the stored function find_nearby_users (the FIXED
    VERSION with SECURITY DEFINER), and the trigger functions
    create_connection_on_accept and create_connection_request_notification
    together with their trigger wiring.
  * middleware.ts (appended debug script) — the alternative
    find_nearby_users definition created by the debug script; it runs with
    invoker rights (no SECURITY DEFINER), has no self-exclusion filter, no
    LIMIT, and does not return latitude/longitude columns.
  * the dashboard page — fetchNearbyUsers (client read path) and
    handleSendConnectionRequest (client insert path with the 23505
    unique-violation branch).

Modelling decisions:
  * UUIDs are modelled as Nat; the all-zero sentinel UUID used by
    COALESCE(auth.uid(), '00000000-...') is sentinelUid = 0.  LEAST and
    GREATEST on UUIDs become min and max on Nat.
  * double precision coordinates and distances are modelled as rationals;
    the PostGIS geodesic distance ST_Distance (meters) is an abstract
    parameter dist of the query functions, and ST_DWithin a b m is its
    documented semantics dist a b <= m (inclusive boundary).
  * timestamps irrelevant to the claims are dropped; user_locations keeps
    updated_at (returned as last_seen) as a Nat.
  * the status column is modelled total over its CHECK domain
    (pending, accepted, rejected); SQL NULL statuses are not modelled.
  * each SQL statement is a Lean function on an explicit database state;
    AFTER UPDATE triggers run per affected row (the accept trigger first,
    matching alphabetical trigger-name firing order), and a raising
    trigger aborts the whole statement, returning Except.error.
  * SECURITY DEFINER functions read tables directly; invoker-rights
    reads are filtered through the row-level-security policy predicates.
-/

namespace NearbyConnect

/-- UUIDs are modelled as naturals. -/
abbrev UserId := Nat

/-- The all-zero UUID substituted by COALESCE(auth.uid(), ...) in
find_nearby_users when there is no authenticated caller. -/
def sentinelUid : UserId := 0

/-- A PostGIS geography point: ST_MakePoint(lng, lat). -/
structure GeoPoint where
  lng : ℚ
  lat : ℚ
deriving DecidableEq, Repr

/-- A row of public.profiles (columns used by the data layer; the purely
presentational columns address, city, country, phone, date_of_birth, theme
and the timestamps are omitted). -/
structure Profile where
  id : UserId
  username : String
  full_name : String
  bio : Option String
  avatar_url : Option String
  interests : List String
  is_available : Bool
deriving DecidableEq, Repr

/-- A row of public.user_locations; location is nullable in the schema. -/
structure UserLocation where
  user_id : UserId
  location : Option GeoPoint
  updated_at : Nat
deriving DecidableEq, Repr

/-- The CHECK domain of connection_requests.status. -/
inductive ReqStatus
  | pending
  | accepted
  | rejected
deriving DecidableEq, Repr

/-- A row of public.connection_requests. -/
structure ConnectionRequest where
  id : Nat
  sender_id : UserId
  receiver_id : UserId
  status : ReqStatus
deriving DecidableEq, Repr

/-- A row of public.connections; the table carries
CHECK (user_id_1 < user_id_2) and UNIQUE(user_id_1, user_id_2). -/
structure Connection where
  user_id_1 : UserId
  user_id_2 : UserId
deriving DecidableEq, Repr

/-- The CHECK domain of notifications.type. -/
inductive NotifType
  | connection_request
  | connection_accepted
  | message
deriving DecidableEq, Repr

/-- A row of public.notifications (title and body text omitted; the data
payload is reduced to the referenced connection_request id). -/
structure Notification where
  user_id : UserId
  ntype : NotifType
  connection_request_id : Nat
deriving DecidableEq, Repr

/-- SQL error conditions relevant to the embedded statements:
uniqueViolation is SQLSTATE 23505 (unique constraint), checkViolation is
23514 (CHECK constraint), rlsViolation is a policy WITH CHECK failure. -/
inductive SqlError
  | uniqueViolation
  | checkViolation
  | rlsViolation
deriving DecidableEq, Repr

/-- The database state: one list per table (messages carry no claim in
this development and are omitted). -/
structure DB where
  profiles : List Profile
  user_locations : List UserLocation
  connection_requests : List ConnectionRequest
  connections : List Connection
  notifications : List Notification
deriving DecidableEq, Repr

/-- The row type returned by the FIXED find_nearby_users. -/
structure NearbyRow where
  id : UserId
  username : String
  full_name : String
  avatar_url : Option String
  bio : Option String
  interests : List String
  latitude : ℚ
  longitude : ℚ
  distance_km : ℚ
  last_seen : Nat
deriving DecidableEq, Repr

/-- The row type returned by the debug-script find_nearby_users (it has no
latitude/longitude columns). -/
structure DebugRow where
  id : UserId
  username : String
  full_name : String
  avatar_url : Option String
  bio : Option String
  interests : List String
  distance_km : ℚ
  last_seen : Nat
deriving DecidableEq, Repr

/-- ORDER BY distance_km ASC, as a relation on result rows. -/
def byDistance (a b : NearbyRow) : Prop :=
  a.distance_km ≤ b.distance_km

instance : DecidableRel byDistance :=
  fun a b => inferInstanceAs (Decidable (a.distance_km ≤ b.distance_km))

instance : IsTotal NearbyRow byDistance :=
  ⟨fun a b => le_total a.distance_km b.distance_km⟩

instance : IsTrans NearbyRow byDistance :=
  ⟨fun _ _ _ hab hbc => le_trans hab hbc⟩

/-- ORDER BY distance_km ASC for the debug row type. -/
def byDebugDistance (a b : DebugRow) : Prop :=
  a.distance_km ≤ b.distance_km

instance : DecidableRel byDebugDistance :=
  fun a b => inferInstanceAs (Decidable (a.distance_km ≤ b.distance_km))

instance : IsTotal DebugRow byDebugDistance :=
  ⟨fun a b => le_total a.distance_km b.distance_km⟩

instance : IsTrans DebugRow byDebugDistance :=
  ⟨fun _ _ _ hab hbc => le_trans hab hbc⟩

/-- One candidate row of the FIXED find_nearby_users SELECT: the INNER JOIN
of a profile with its user_locations row, the WHERE clause
(is_available = true, id different from COALESCE(auth.uid(), sentinel),
ST_DWithin within radius_km * 1000 meters), and the projected columns
including ST_Y/ST_X of the stored point and ST_Distance / 1000. -/
def nearbyRowOf (dist : GeoPoint → GeoPoint → ℚ) (db : DB) (requester : UserId)
    (refPt : GeoPoint) (radius_km : ℚ) (p : Profile) : Option NearbyRow :=
  match db.user_locations.find? (fun ul => ul.user_id == p.id) with
  | none => none
  | some ul =>
    match ul.location with
    | none => none
    | some pt =>
      if p.is_available = true ∧ p.id ≠ requester ∧ dist refPt pt ≤ radius_km * 1000 then
        some (NearbyRow.mk p.id p.username p.full_name p.avatar_url p.bio p.interests
          pt.lat pt.lng (dist refPt pt / 1000) ul.updated_at)
      else none

/-- The unsorted, uncapped candidate set of the FIXED find_nearby_users. -/
def nearbyCandidates (dist : GeoPoint → GeoPoint → ℚ) (db : DB) (requester : UserId)
    (refPt : GeoPoint) (radius_km : ℚ) : List NearbyRow :=
  db.profiles.filterMap (nearbyRowOf dist db requester refPt radius_km)

/-- find_nearby_users, FIXED VERSION (fix-database-function.sql): SECURITY
DEFINER (reads are not filtered by row-level security), excludes
COALESCE(auth.uid(), sentinel), ORDER BY distance_km ASC, LIMIT 100. -/
def find_nearby_users (dist : GeoPoint → GeoPoint → ℚ) (db : DB) (authUid : Option UserId)
    (user_lat user_lng radius_km : ℚ) : List NearbyRow :=
  (List.insertionSort byDistance
    (nearbyCandidates dist db (authUid.getD sentinelUid)
      (GeoPoint.mk user_lng user_lat) radius_km)).take 100

/-- user_locations rows visible to an invoker-rights reader:
user_locations_select_policy USING (auth.uid() = user_id). -/
def user_locations_select (db : DB) (authUid : Option UserId) : List UserLocation :=
  db.user_locations.filter (fun ul => authUid == some ul.user_id)

/-- profiles rows visible to an invoker-rights reader:
profiles_select_policy USING (is_available = true OR auth.uid() = id). -/
def profiles_select (db : DB) (authUid : Option UserId) : List Profile :=
  db.profiles.filter (fun p => p.is_available || authUid == some p.id)

/-- find_nearby_users as recreated by the debug script appended to
middleware.ts: plain LANGUAGE plpgsql (invoker rights, so the
row-level-security policies filter both tables it reads), no
self-exclusion predicate, no latitude/longitude output columns, no LIMIT,
ORDER BY distance_km ASC. -/
def find_nearby_users_debug (dist : GeoPoint → GeoPoint → ℚ) (db : DB)
    (authUid : Option UserId) (user_lat user_lng radius_km : ℚ) : List DebugRow :=
  List.insertionSort byDebugDistance
    ((profiles_select db authUid).filterMap (fun p =>
      match (user_locations_select db authUid).find? (fun ul => ul.user_id == p.id) with
      | none => none
      | some ul =>
        match ul.location with
        | none => none
        | some pt =>
          if p.is_available = true ∧
              dist (GeoPoint.mk user_lng user_lat) pt ≤ radius_km * 1000 then
            some (DebugRow.mk p.id p.username p.full_name p.avatar_url p.bio p.interests
              (dist (GeoPoint.mk user_lng user_lat) pt / 1000) ul.updated_at)
          else none))

/-- OLD IS NULL OR OLD.status != 'pending' (first guard of the
notification trigger; OLD reads as NULL in an AFTER INSERT firing). -/
def oldStatusNotPending (old : Option ConnectionRequest) : Bool :=
  match old with
  | none => true
  | some o => o.status != ReqStatus.pending

/-- OLD.status IS NULL OR OLD.status = 'pending' (guard shared by the
accept branch of the notification trigger and by
create_connection_on_accept). -/
def oldStatusIsNullOrPending (old : Option ConnectionRequest) : Bool :=
  match old with
  | none => true
  | some o => o.status == ReqStatus.pending

/-- INSERT INTO connections (user_id_1, user_id_2) VALUES (u1, u2)
ON CONFLICT (user_id_1, user_id_2) DO NOTHING, against
CHECK (user_id_1 < user_id_2) and UNIQUE(user_id_1, user_id_2).
A CHECK violation raises; a unique conflict is silently absorbed. -/
def insertConnection (connections : List Connection) (u1 u2 : UserId) :
    Except SqlError (List Connection) :=
  if u1 < u2 then
    if connections.any (fun c => c.user_id_1 == u1 && c.user_id_2 == u2) then
      Except.ok connections
    else
      Except.ok (connections ++ [Connection.mk u1 u2])
  else
    Except.error SqlError.checkViolation

/-- Trigger function create_connection_on_accept: on a transition into
accepted from pending (or from an unassigned OLD), insert the connection
with LEAST/GREATEST participant order, absorbing a duplicate pair. -/
def create_connection_on_accept (old : Option ConnectionRequest) (new : ConnectionRequest)
    (connections : List Connection) : Except SqlError (List Connection) :=
  if new.status = ReqStatus.accepted ∧ oldStatusIsNullOrPending old = true then
    insertConnection connections (min new.sender_id new.receiver_id)
      (max new.sender_id new.receiver_id)
  else
    Except.ok connections

/-- Trigger function create_connection_request_notification: emits a
connection_request notification to the receiver on a transition into
pending, and a connection_accepted notification to the sender on a
transition from pending (or unassigned OLD) into accepted. -/
def create_connection_request_notification (old : Option ConnectionRequest)
    (new : ConnectionRequest) : List Notification :=
  (if new.status = ReqStatus.pending ∧ oldStatusNotPending old = true then
    [Notification.mk new.receiver_id NotifType.connection_request new.id]
  else []) ++
  (if new.status = ReqStatus.accepted ∧ oldStatusIsNullOrPending old = true then
    [Notification.mk new.sender_id NotifType.connection_accepted new.id]
  else [])

/-- INSERT INTO connection_requests: connection_requests_insert_policy
WITH CHECK (auth.uid() = sender_id), then the PRIMARY KEY and the
UNIQUE(sender_id, receiver_id) constraints (both raise SQLSTATE 23505),
then the AFTER INSERT notification trigger (OLD unassigned). -/
def createRequest (db : DB) (caller : Option UserId) (rid : Nat)
    (sender receiver : UserId) (status : ReqStatus) : Except SqlError DB :=
  if caller = some sender then
    if db.connection_requests.any (fun r => r.id == rid) then
      Except.error SqlError.uniqueViolation
    else if db.connection_requests.any
        (fun r => r.sender_id == sender && r.receiver_id == receiver) then
      Except.error SqlError.uniqueViolation
    else
      let row := ConnectionRequest.mk rid sender receiver status
      Except.ok (DB.mk db.profiles db.user_locations
        (db.connection_requests ++ [row]) db.connections
        (db.notifications ++ create_connection_request_notification none row))
  else
    Except.error SqlError.rlsViolation

/-- The UPDATE row predicate: WHERE id = reqId, filtered by
connection_requests_update_policy USING (auth.uid() = receiver_id).
The policy WITH CHECK clause also requires auth.uid() = receiver_id on the
updated row; a status-only update leaves receiver_id unchanged, so it is
satisfied exactly when the USING clause is. -/
def requestMatches (caller : Option UserId) (reqId : Nat) (r : ConnectionRequest) : Prop :=
  r.id = reqId ∧ caller = some r.receiver_id

instance (caller : Option UserId) (reqId : Nat) :
    DecidablePred (requestMatches caller reqId) :=
  fun r => inferInstanceAs (Decidable (r.id = reqId ∧ caller = some r.receiver_id))

/-- connection_requests after UPDATE ... SET status = newStatus on the
matching, policy-visible rows (the BEFORE trigger handle_updated_at only
touches the unmodelled timestamp). -/
def updatedRequests (caller : Option UserId) (reqId : Nat) (newStatus : ReqStatus)
    (l : List ConnectionRequest) : List ConnectionRequest :=
  l.map (fun r =>
    if requestMatches caller reqId r then
      ConnectionRequest.mk r.id r.sender_id r.receiver_id newStatus
    else r)

/-- The (OLD, NEW) pairs the AFTER UPDATE row triggers fire for. -/
def updateEvents (caller : Option UserId) (reqId : Nat) (newStatus : ReqStatus)
    (l : List ConnectionRequest) : List (ConnectionRequest × ConnectionRequest) :=
  (l.filter (fun r => decide (requestMatches caller reqId r))).map
    (fun r => (r, ConnectionRequest.mk r.id r.sender_id r.receiver_id newStatus))

/-- Runs create_connection_on_accept for each affected row; a raised error
aborts the statement. -/
def runAcceptTriggers : List (ConnectionRequest × ConnectionRequest) →
    List Connection → Except SqlError (List Connection)
  | [], conns => Except.ok conns
  | ev :: evs, conns =>
    match create_connection_on_accept (some ev.1) ev.2 conns with
    | Except.error e => Except.error e
    | Except.ok conns2 => runAcceptTriggers evs conns2

/-- Runs create_connection_request_notification for each affected row and
collects the inserted notification rows. -/
def notifFanout (evs : List (ConnectionRequest × ConnectionRequest)) : List Notification :=
  evs.foldr (fun ev acc => create_connection_request_notification (some ev.1) ev.2 ++ acc) []

/-- UPDATE public.connection_requests SET status = newStatus
WHERE id = reqId, as issued by the resolve path: row-level security makes
the update a silent no-op on rows whose receiver is not the caller; the
AFTER UPDATE triggers on_connection_request_accept (connection creation,
alphabetically first) and on_connection_request_updated (notification
fan-out) run per affected row; any raised error aborts the whole
statement with no effects. -/
def updateRequestStatus (db : DB) (caller : Option UserId) (reqId : Nat)
    (newStatus : ReqStatus) : Except SqlError DB :=
  match runAcceptTriggers (updateEvents caller reqId newStatus db.connection_requests)
      db.connections with
  | Except.error e => Except.error e
  | Except.ok conns =>
    Except.ok (DB.mk db.profiles db.user_locations
      (updatedRequests caller reqId newStatus db.connection_requests)
      conns (db.notifications ++
        notifFanout (updateEvents caller reqId newStatus db.connection_requests)))

/-- The outcome handleSendConnectionRequest presents to the user. -/
inductive SendOutcome
  | sent
  | alreadyRequested
  | genericError
deriving DecidableEq, Repr

/-- handleSendConnectionRequest (dashboard page): inserts a pending
request with the caller as sender; a caught error with code 23505 is
surfaced as the dedicated already-requested alert, any other error as a
generic failure; the database is unchanged on failure. -/
def handleSendConnectionRequest (db : DB) (caller : UserId) (rid : Nat)
    (receiver : UserId) : SendOutcome × DB :=
  match createRequest db (some caller) rid caller receiver ReqStatus.pending with
  | Except.ok db2 => (SendOutcome.sent, db2)
  | Except.error SqlError.uniqueViolation => (SendOutcome.alreadyRequested, db)
  | Except.error _ => (SendOutcome.genericError, db)

/-- The dashboard state written by fetchNearbyUsers. -/
structure DashboardNearbyState where
  nearbyUsers : List NearbyRow
  nearbyCount : Nat
deriving DecidableEq, Repr

/-- An opaque supabase RPC failure (store unavailable, timeout, ...). -/
inductive RpcError
  | unavailable
deriving DecidableEq, Repr

/-- fetchNearbyUsers (dashboard page): on an RPC error it logs and sets
the nearby list to empty and the count to zero; on success it stores the
returned rows and their count. -/
def fetchNearbyUsers (rpcResult : Except RpcError (List NearbyRow)) : DashboardNearbyState :=
  match rpcResult with
  | Except.error _ => DashboardNearbyState.mk [] 0
  | Except.ok data => DashboardNearbyState.mk data data.length

/-- Spec-side comparator for the proximity result set, following the
specification words: the set of all users that are available and whose
stored location lies within the radius of the reference point.  Used to
compare the code result against the claimed result set. -/
def specInRadiusAvailableIds (dist : GeoPoint → GeoPoint → ℚ) (db : DB)
    (refPt : GeoPoint) (radius_km : ℚ) : List UserId :=
  db.profiles.filterMap (fun p =>
    match db.user_locations.find? (fun ul => ul.user_id == p.id) with
    | none => none
    | some ul =>
      match ul.location with
      | none => none
      | some pt =>
        if p.is_available = true ∧ dist refPt pt ≤ radius_km * 1000 then some p.id
        else none)

/-- The distinct-pair relation maintained by UNIQUE(user_id_1, user_id_2)
on connections. -/
def pairDistinct (c d : Connection) : Prop :=
  c.user_id_1 ≠ d.user_id_1 ∨ c.user_id_2 ≠ d.user_id_2

instance : DecidableRel pairDistinct :=
  fun c d => inferInstanceAs (Decidable (c.user_id_1 ≠ d.user_id_1 ∨ c.user_id_2 ≠ d.user_id_2))

/-- The distinct-ordered-pair relation maintained by
UNIQUE(sender_id, receiver_id) on connection_requests. -/
def reqPairDistinct (a b : ConnectionRequest) : Prop :=
  ¬(a.sender_id = b.sender_id ∧ a.receiver_id = b.receiver_id)

instance : DecidableRel reqPairDistinct :=
  fun a b => inferInstanceAs
    (Decidable (¬(a.sender_id = b.sender_id ∧ a.receiver_id = b.receiver_id)))

/-- Expected connections table after the accept trigger for a request
between s and r: the ON CONFLICT DO NOTHING insert of the canonical pair.
A result characterization used in theorem statements; the authoritative
definition of the behaviour is insertConnection. -/
def acceptConnections (conns : List Connection) (s r : UserId) : List Connection :=
  if conns.any (fun c => c.user_id_1 == min s r && c.user_id_2 == max s r) then conns
  else conns ++ [Connection.mk (min s r) (max s r)]

/-- Expected database after the receiver accepts the request req (whose
row id is reqId).  A result characterization used in theorem statements;
the authoritative definition of the behaviour is updateRequestStatus. -/
def acceptedDb (db : DB) (req : ConnectionRequest) (reqId : Nat) : DB :=
  DB.mk db.profiles db.user_locations
    (updatedRequests (some req.receiver_id) reqId ReqStatus.accepted db.connection_requests)
    (acceptConnections db.connections req.sender_id req.receiver_id)
    (db.notifications ++ [Notification.mk req.sender_id NotifType.connection_accepted req.id])

/-- Absolute value written as an executable conditional. -/
def absQ (q : ℚ) : ℚ :=
  if 0 ≤ q then q else -q

/-- A concrete Manhattan-style metric standing in for the abstract
geodesic distance in concrete evaluations. -/
def dist0 (a b : GeoPoint) : ℚ :=
  absQ (a.lng - b.lng) + absQ (a.lat - b.lat)

/-- The everywhere-zero metric, for concrete evaluations where distances
are irrelevant. -/
def distZero (_ _ : GeoPoint) : ℚ := 0

/-- Concrete state: user 1 (available, at the origin), user 2 (available,
at lng 7 lat 9), user 3 (unavailable, at lng 0 lat 1). -/
def db0 : DB :=
  DB.mk
    [Profile.mk 1 "alice" "Alice" none none [] true,
     Profile.mk 2 "bob" "Bob" none none [] true,
     Profile.mk 3 "carol" "Carol" none none [] false]
    [UserLocation.mk 1 (some (GeoPoint.mk 0 0)) 10,
     UserLocation.mk 2 (some (GeoPoint.mk 7 9)) 20,
     UserLocation.mk 3 (some (GeoPoint.mk 0 1)) 30]
    [] [] []

/-- Concrete state with 101 available located users (ids 1..101), all at
the origin. -/
def bigDb : DB :=
  DB.mk
    ((List.range 101).map (fun i => Profile.mk (i + 1) "u" "u" none none [] true))
    ((List.range 101).map (fun i => UserLocation.mk (i + 1) (some (GeoPoint.mk 0 0)) 0))
    [] [] []

/-- Concrete state with a self-request: user 5 sent a pending request to
themself (the schema does not forbid sender_id = receiver_id). -/
def selfDb : DB :=
  DB.mk [] [] [ConnectionRequest.mk 10 5 5 ReqStatus.pending] [] []

/-- Concrete state with one pending request from user 2 to user 1. -/
def c2Db : DB :=
  DB.mk [] [] [ConnectionRequest.mk 20 2 1 ReqStatus.pending] [] []

/-- Concrete state with one already-accepted request from user 1 to
user 2. -/
def c3Db : DB :=
  DB.mk [] [] [ConnectionRequest.mk 11 1 2 ReqStatus.accepted] [] []

/-- Concrete state with one pending request from user 1 to user 2. -/
def c6Db : DB :=
  DB.mk [] [] [ConnectionRequest.mk 30 1 2 ReqStatus.pending] [] []

/-!  Helper lemmas about the proximity query. -/

/-- Unpacks everything the WHERE clause and the SELECT list guarantee
about a candidate row produced from a profile. -/
theorem nearbyRowOf_sound {dist : GeoPoint → GeoPoint → ℚ} {db : DB} {requester : UserId}
    {refPt : GeoPoint} {radius_km : ℚ} {p : Profile} {row : NearbyRow}
    (h : nearbyRowOf dist db requester refPt radius_km p = some row) :
    row.id = p.id ∧ p.is_available = true ∧ p.id ≠ requester ∧
      row.distance_km ≤ radius_km ∧
      ∃ ul, ul ∈ db.user_locations ∧ ∃ pt, ul.user_id = p.id ∧ ul.location = some pt ∧
        row.latitude = pt.lat ∧ row.longitude = pt.lng ∧
        row.distance_km = dist refPt pt / 1000 ∧ dist refPt pt ≤ radius_km * 1000 := by
  unfold nearbyRowOf at h
  cases hfind : db.user_locations.find? (fun ul => ul.user_id == p.id) with
  | none => rw [hfind] at h; cases h
  | some ul =>
    rw [hfind] at h
    dsimp only at h
    cases hloc : ul.location with
    | none => rw [hloc] at h; cases h
    | some pt =>
      rw [hloc] at h
      dsimp only at h
      by_cases hc : p.is_available = true ∧ p.id ≠ requester ∧ dist refPt pt ≤ radius_km * 1000
      · rw [if_pos hc] at h
        obtain ⟨hav, hne, hd⟩ := hc
        obtain rfl := (Option.some.inj h).symm
        have hulid : ul.user_id = p.id := by simpa using List.find?_some hfind
        refine ⟨rfl, hav, hne, ?_, ul, List.mem_of_find?_eq_some hfind, pt, hulid, hloc,
          rfl, rfl, rfl, hd⟩
        show dist refPt pt / 1000 ≤ radius_km
        rw [div_le_iff₀ (by norm_num : (0:ℚ) < 1000)]
        linarith
      · rw [if_neg hc] at h; cases h

/-- A member of the candidate set comes from some profile row. -/
theorem mem_nearbyCandidates {dist : GeoPoint → GeoPoint → ℚ} {db : DB} {requester : UserId}
    {refPt : GeoPoint} {radius_km : ℚ} {row : NearbyRow}
    (h : row ∈ nearbyCandidates dist db requester refPt radius_km) :
    ∃ p, p ∈ db.profiles ∧ nearbyRowOf dist db requester refPt radius_km p = some row := by
  unfold nearbyCandidates at h
  exact List.mem_filterMap.mp h

/-- A member of the final result comes from some profile row. -/
theorem mem_find_nearby_users {dist : GeoPoint → GeoPoint → ℚ} {db : DB}
    {authUid : Option UserId} {lat lng radius : ℚ} {row : NearbyRow}
    (h : row ∈ find_nearby_users dist db authUid lat lng radius) :
    ∃ p, p ∈ db.profiles ∧
      nearbyRowOf dist db (authUid.getD sentinelUid) (GeoPoint.mk lng lat) radius p = some row := by
  unfold find_nearby_users at h
  exact mem_nearbyCandidates
    ((List.mem_insertionSort byDistance).mp ((List.take_sublist _ _).subset h))

/-- ORDER BY distance_km ASC holds of the final result. -/
theorem find_nearby_users_sorted (dist : GeoPoint → GeoPoint → ℚ) (db : DB)
    (authUid : Option UserId) (lat lng radius : ℚ) :
    (find_nearby_users dist db authUid lat lng radius).Pairwise byDistance := by
  unfold find_nearby_users
  have hs : (List.insertionSort byDistance
      (nearbyCandidates dist db (authUid.getD sentinelUid)
        (GeoPoint.mk lng lat) radius)).Pairwise byDistance :=
    List.sorted_insertionSort byDistance _
  exact hs.sublist (List.take_sublist _ _)

/-- LIMIT 100 holds of the final result. -/
theorem find_nearby_users_length_le (dist : GeoPoint → GeoPoint → ℚ) (db : DB)
    (authUid : Option UserId) (lat lng radius : ℚ) :
    (find_nearby_users dist db authUid lat lng radius).length ≤ 100 :=
  List.length_take_le 100 _

/-- Every row of the debug-script variant is the caller's own: its reads
run under row-level security, so the joined location row must belong to
the caller. -/
theorem mem_find_nearby_users_debug {dist : GeoPoint → GeoPoint → ℚ} {db : DB}
    {authUid : Option UserId} {lat lng radius : ℚ} {row : DebugRow}
    (h : row ∈ find_nearby_users_debug dist db authUid lat lng radius) :
    authUid = some row.id := by
  unfold find_nearby_users_debug at h
  obtain ⟨p, hp, hpe⟩ := List.mem_filterMap.mp ((List.mem_insertionSort byDebugDistance).mp h)
  cases hfind : (user_locations_select db authUid).find? (fun ul => ul.user_id == p.id) with
  | none => rw [hfind] at hpe; cases hpe
  | some ul =>
    rw [hfind] at hpe
    dsimp only at hpe
    cases hloc : ul.location with
    | none => rw [hloc] at hpe; cases hpe
    | some pt =>
      rw [hloc] at hpe
      dsimp only at hpe
      by_cases hc : p.is_available = true ∧ dist (GeoPoint.mk lng lat) pt ≤ radius * 1000
      · rw [if_pos hc] at hpe
        obtain rfl := (Option.some.inj hpe).symm
        have hulid : ul.user_id = p.id := by simpa using List.find?_some hfind
        have hsel : authUid = some ul.user_id := by
          have hmem := List.mem_of_find?_eq_some hfind
          unfold user_locations_select at hmem
          simpa using (List.mem_filter.mp hmem).2
        simpa [hulid] using hsel
      · rw [if_neg hc] at hpe; cases hpe

/-- Claim C1: for every caller and every (lat, lng, radius) input, the rows
returned by find_nearby_users never carry the requester's id, always come
from a profile with is_available = true, carry distance_km equal to the
geodesic meter distance to the user's stored point divided by 1000 and at
most the given radius; the result is sorted ascending by distance_km and
has at most 100 rows. -/
theorem find_nearby_users_contract (dist : GeoPoint → GeoPoint → ℚ) (db : DB) (uid : UserId)
    (lat lng radius : ℚ) :
    (∀ row ∈ find_nearby_users dist db (some uid) lat lng radius,
      row.id ≠ uid ∧
      (∃ p, p ∈ db.profiles ∧ p.id = row.id ∧ p.is_available = true) ∧
      row.distance_km ≤ radius ∧
      (∃ ul, ul ∈ db.user_locations ∧ ∃ pt, ul.user_id = row.id ∧ ul.location = some pt ∧
        row.distance_km = dist (GeoPoint.mk lng lat) pt / 1000 ∧
        dist (GeoPoint.mk lng lat) pt ≤ radius * 1000)) ∧
    (find_nearby_users dist db (some uid) lat lng radius).Pairwise byDistance ∧
    (find_nearby_users dist db (some uid) lat lng radius).length ≤ 100 := by
  refine ⟨?_, find_nearby_users_sorted dist db (some uid) lat lng radius,
    find_nearby_users_length_le dist db (some uid) lat lng radius⟩
  intro row hrow
  obtain ⟨p, hp, hrowOf⟩ := mem_find_nearby_users hrow
  obtain ⟨hid, hav, hne, hdle, ul, hul, pt, hulid, hloc, _, _, hdist, hdsel⟩ :=
    nearbyRowOf_sound hrowOf
  refine ⟨by rw [hid]; exact hne, ⟨p, hp, hid.symm, hav⟩, hdle,
    ul, hul, pt, by rw [hulid, hid], hloc, hdist, hdsel⟩

/-- Witness for claim C1 at a concrete state: caller 1 receives the row for
user 2, whose id is not 1 and whose distance is within the radius. -/
theorem find_nearby_users_contract_witness :
    (NearbyRow.mk 2 "bob" "Bob" none none [] 9 7 (2/125) 20).id ≠ 1 ∧
    (NearbyRow.mk 2 "bob" "Bob" none none [] 9 7 (2/125) 20).distance_km ≤ 2 := by
  have h := (find_nearby_users_contract dist0 db0 1 0 0 2).1
    (NearbyRow.mk 2 "bob" "Bob" none none [] 9 7 (2/125) 20) (by with_unfolding_all decide)
  exact ⟨h.1, h.2.2.1⟩

/-- Claim C4 counterexample: find_nearby_users hands caller 1 the raw stored
latitude/longitude of user 2 (the point lng 7 lat 9 stored in that user's
user_locations row), so the raw coordinates of another user ARE exposed
beyond the anonymized distance. -/
theorem location_leak_counterexample :
    (find_nearby_users dist0 db0 (some 1) 0 0 2).map
      (fun row => (row.id, row.latitude, row.longitude)) = [(2, 9, 7)] ∧
    UserLocation.mk 2 (some (GeoPoint.mk 7 9)) 20 ∈ db0.user_locations ∧
    (1 : UserId) ≠ 2 := by
  refine ⟨by with_unfolding_all decide, by decide, by decide⟩

/-- Claim C4, amended: direct SELECTs on user_locations are owner-scoped by the
row-level-security policy — every row a reader obtains from the table is
their own. (The raw coordinates are nevertheless exposed through the
SECURITY DEFINER proximity function, per the counterexample.) -/
theorem user_locations_select_owner_only (db : DB) (authUid : Option UserId)
    (row : UserLocation) (h : row ∈ user_locations_select db authUid) :
    authUid = some row.user_id := by
  unfold user_locations_select at h
  simpa using (List.mem_filter.mp h).2

/-- Witness for the amended claim C4 at a concrete state. -/
theorem user_locations_select_owner_only_witness :
    (some 1 : Option UserId) = some (UserLocation.mk 1 (some (GeoPoint.mk 0 0)) 10).user_id :=
  user_locations_select_owner_only db0 (some 1)
    (UserLocation.mk 1 (some (GeoPoint.mk 0 0)) 10) (by decide)

/-- Claim C10 counterexample: on the same state and input, the FIXED version
called by user 1 returns exactly user 2, while the debug-script version
returns exactly user 1 — the two definitions disagree on the returned
set of users. -/
theorem two_versions_disagree_counterexample :
    (find_nearby_users dist0 db0 (some 1) 0 0 2).map NearbyRow.id = [2] ∧
    (find_nearby_users_debug dist0 db0 (some 1) 0 0 2).map DebugRow.id = [1] := by
  refine ⟨by with_unfolding_all decide, by with_unfolding_all decide⟩

/-- Claim C10, amended: the two definitions are extensionally different; under
invoker rights the debug version can only join the caller's own location
row, so every row it returns carries the caller's id, while the FIXED
version never returns the caller's id — they agree only when both results
are empty. -/
theorem two_versions_relationship (dist : GeoPoint → GeoPoint → ℚ) (db : DB) (uid : UserId)
    (lat lng radius : ℚ) :
    (∀ row ∈ find_nearby_users_debug dist db (some uid) lat lng radius, row.id = uid) ∧
    (∀ row ∈ find_nearby_users dist db (some uid) lat lng radius, row.id ≠ uid) := by
  constructor
  · intro row hrow
    exact (Option.some.inj (mem_find_nearby_users_debug hrow)).symm
  · intro row hrow
    obtain ⟨p, _, hrowOf⟩ := mem_find_nearby_users hrow
    obtain ⟨hid, _, hne, _⟩ := nearbyRowOf_sound hrowOf
    rw [hid]
    exact hne

/-- Witness for the amended claim C10 at a concrete state. -/
theorem two_versions_relationship_witness :
    (DebugRow.mk 1 "alice" "Alice" none none [] 0 10).id = 1 :=
  (two_versions_relationship dist0 db0 1 0 0 2).1
    (DebugRow.mk 1 "alice" "Alice" none none [] 0 10) (by with_unfolding_all decide)

/-- Claim C8 counterexample: the dashboard read path renders a store failure
exactly as it renders an empty result — the two outcomes are
observationally identical to the caller. -/
theorem error_equals_empty_counterexample :
    fetchNearbyUsers (Except.error RpcError.unavailable) = fetchNearbyUsers (Except.ok []) :=
  rfl

/-- Claim C8, amended: every RPC failure in fetchNearbyUsers is mapped to the
same dashboard state as an empty result (empty list, zero count), so
could-not-check is NOT distinguishable from nothing-found in this read
path; a successful call stores the rows and their count. -/
theorem fetchNearbyUsers_conflates_error_and_empty (e : RpcError) (data : List NearbyRow) :
    fetchNearbyUsers (Except.error e) = DashboardNearbyState.mk [] 0 ∧
    fetchNearbyUsers (Except.ok data) = DashboardNearbyState.mk data data.length := by
  cases e
  exact ⟨rfl, rfl⟩

/-- Witness for the amended claim C8 at a concrete input. -/
theorem fetchNearbyUsers_conflates_witness :
    fetchNearbyUsers (Except.error RpcError.unavailable) = DashboardNearbyState.mk [] 0 :=
  (fetchNearbyUsers_conflates_error_and_empty RpcError.unavailable []).1

/-- When no profile carries the sentinel id, the self-exclusion predicate
of the unauthenticated query filters nothing: the candidate ids are
exactly the available users with a stored point within the radius. -/
theorem candidates_ids_no_sentinel (dist : GeoPoint → GeoPoint → ℚ) (db : DB)
    (refPt : GeoPoint) (radius_km : ℚ)
    (hsent : ∀ p ∈ db.profiles, p.id ≠ sentinelUid) :
    (nearbyCandidates dist db sentinelUid refPt radius_km).map NearbyRow.id =
      specInRadiusAvailableIds dist db refPt radius_km := by
  unfold nearbyCandidates specInRadiusAvailableIds
  rw [List.map_filterMap]
  apply List.filterMap_congr
  intro p hp
  have hid : p.id ≠ sentinelUid := hsent p hp
  unfold nearbyRowOf
  cases hfind : db.user_locations.find? (fun ul => ul.user_id == p.id) with
  | none => rfl
  | some ul =>
    dsimp only
    cases hloc : ul.location with
    | none => rfl
    | some pt =>
      dsimp only
      by_cases hc : p.is_available = true ∧ dist refPt pt ≤ radius_km * 1000
      · rw [if_pos ⟨hc.1, hid, hc.2⟩, if_pos hc]
        rfl
      · rw [if_neg (fun hcon => hc ⟨hcon.1, hcon.2.2⟩), if_neg hc]
        rfl

/-- Claim C9 counterexample: in a state with 101 available in-radius users and
no sentinel-id profile, the unauthenticated result misses user 101
because of LIMIT 100 — the result set does not equal the set of all
in-radius available users. -/
theorem unauth_result_misses_user_counterexample :
    (101 : UserId) ∈ specInRadiusAvailableIds distZero bigDb (GeoPoint.mk 0 0) 2 ∧
    (101 : UserId) ∉ (find_nearby_users distZero bigDb none 0 0 2).map NearbyRow.id ∧
    bigDb.profiles.all (fun p => p.id != sentinelUid) = true := by
  refine ⟨by with_unfolding_all decide, by with_unfolding_all decide, by decide⟩

/-- Claim C9, amended: when no profile has the sentinel id AND at most 100 users
are in radius, the unauthenticated result is exactly (a permutation of)
the set of all in-radius available users — the sentinel keeps the
self-exclusion filter from excluding anyone, and only the LIMIT 100 cap
can shrink the result below the full set. -/
theorem unauth_result_is_all_in_radius (dist : GeoPoint → GeoPoint → ℚ) (db : DB)
    (lat lng radius : ℚ)
    (hsent : ∀ p ∈ db.profiles, p.id ≠ sentinelUid)
    (hcap : (specInRadiusAvailableIds dist db (GeoPoint.mk lng lat) radius).length ≤ 100) :
    List.Perm ((find_nearby_users dist db none lat lng radius).map NearbyRow.id)
      (specInRadiusAvailableIds dist db (GeoPoint.mk lng lat) radius) := by
  have hmap := candidates_ids_no_sentinel dist db (GeoPoint.mk lng lat) radius hsent
  have hlen : (nearbyCandidates dist db sentinelUid (GeoPoint.mk lng lat) radius).length ≤ 100 := by
    have hl := congrArg List.length hmap
    rw [List.length_map] at hl
    omega
  unfold find_nearby_users
  simp only [Option.getD_none]
  rw [List.take_of_length_le (le_trans (le_of_eq (List.length_insertionSort byDistance _)) hlen)]
  rw [← hmap]
  exact (List.perm_insertionSort byDistance _).map NearbyRow.id

/-- Witness for the amended claim C9 at a concrete state. -/
theorem unauth_result_is_all_in_radius_witness :
    List.Perm ((find_nearby_users dist0 db0 none 0 0 2).map NearbyRow.id)
      (specInRadiusAvailableIds dist0 db0 (GeoPoint.mk 0 0) 2) :=
  unauth_result_is_all_in_radius dist0 db0 0 0 2 (by decide) (by with_unfolding_all decide)

/-!  Helper lemmas about the connection-request UPDATE machinery. -/

/-- If exactly the rows with the given id form the singleton [req], then
exactly [req] is matched once the receiver-policy conjunct (satisfied by
req itself) is added. -/
theorem filter_matches_singleton {l : List ConnectionRequest} {req : ConnectionRequest}
    {reqId : Nat} (hrow : l.filter (fun r => decide (r.id = reqId)) = [req]) :
    l.filter (fun r => decide (requestMatches (some req.receiver_id) reqId r)) = [req] := by
  have h1 : ∀ r ∈ l, (decide (requestMatches (some req.receiver_id) reqId r)) =
      (decide (some req.receiver_id = some r.receiver_id) && decide (r.id = reqId)) := by
    intro r _
    by_cases hA : r.id = reqId <;> by_cases hB : some req.receiver_id = some r.receiver_id <;>
      simp [requestMatches, hA, hB]
  rw [List.filter_congr h1, ← List.filter_filter, hrow]
  simp

/-- The update touches exactly one row when the id selects exactly req
and the caller is its receiver. -/
theorem updateEvents_singleton {l : List ConnectionRequest} {req : ConnectionRequest}
    {reqId : Nat} (st : ReqStatus)
    (hrow : l.filter (fun r => decide (r.id = reqId)) = [req]) :
    updateEvents (some req.receiver_id) reqId st l =
      [(req, ConnectionRequest.mk req.id req.sender_id req.receiver_id st)] := by
  unfold updateEvents
  rw [filter_matches_singleton hrow]
  rfl

/-- Rows of the updated table that match the update predicate carry the
new status. -/
theorem updatedRequests_match_status (caller : Option UserId) (reqId : Nat) (st : ReqStatus)
    (l : List ConnectionRequest) :
    ∀ r ∈ updatedRequests caller reqId st l, requestMatches caller reqId r → r.status = st := by
  intro r hr hm
  unfold updatedRequests at hr
  obtain ⟨r0, _, heq⟩ := List.mem_map.mp hr
  by_cases h : requestMatches caller reqId r0
  · rw [if_pos h] at heq
    rw [← heq]
  · rw [if_neg h] at heq
    subst heq
    exact absurd hm h

/-- An update that re-applies an already-present status over rows that
already carry it leaves the table unchanged. -/
theorem updatedRequests_id (caller : Option UserId) (reqId : Nat) (st : ReqStatus)
    (l : List ConnectionRequest)
    (h : ∀ r ∈ l, requestMatches caller reqId r → r.status = st) :
    updatedRequests caller reqId st l = l := by
  unfold updatedRequests
  have hcong : ∀ r ∈ l,
      (if requestMatches caller reqId r then
        ConnectionRequest.mk r.id r.sender_id r.receiver_id st else r) = r := by
    intro r hr
    by_cases hm : requestMatches caller reqId r
    · rw [if_pos hm, ← h r hr hm]
    · rw [if_neg hm]
  rw [List.map_congr_left hcong]
  exact List.map_id l

/-- Everything known about a row event of an update. -/
theorem mem_updateEvents (caller : Option UserId) (reqId : Nat) (st : ReqStatus)
    (l : List ConnectionRequest) :
    ∀ ev ∈ updateEvents caller reqId st l,
      ev.1 ∈ l ∧ requestMatches caller reqId ev.1 ∧
      ev.2 = ConnectionRequest.mk ev.1.id ev.1.sender_id ev.1.receiver_id st := by
  intro ev hev
  unfold updateEvents at hev
  obtain ⟨r, hr, heq⟩ := List.mem_map.mp hev
  have hrf := List.mem_filter.mp hr
  subst heq
  exact ⟨hrf.1, of_decide_eq_true hrf.2, rfl⟩

/-- The accept trigger does nothing when the OLD status is not pending. -/
theorem runAcceptTriggers_ok_of_old_not_pending (evs : List (ConnectionRequest × ConnectionRequest))
    (conns : List Connection) (h : ∀ ev ∈ evs, ev.1.status ≠ ReqStatus.pending) :
    runAcceptTriggers evs conns = Except.ok conns := by
  induction evs with
  | nil => rfl
  | cons ev evs ih =>
    have h1 : create_connection_on_accept (some ev.1) ev.2 conns = Except.ok conns := by
      unfold create_connection_on_accept
      rw [if_neg ?_]
      intro hcon
      have h2 : (ev.1.status == ReqStatus.pending) = true := by
        simpa [oldStatusIsNullOrPending] using hcon.2
      exact h ev (List.mem_cons_self ev evs) (by simpa using h2)
    simp only [runAcceptTriggers]
    rw [h1]
    exact ih (fun e he => h e (List.mem_cons_of_mem _ he))

/-- The accept trigger does nothing when the NEW status is not accepted. -/
theorem runAcceptTriggers_ok_of_new_not_accepted (evs : List (ConnectionRequest × ConnectionRequest))
    (conns : List Connection) (h : ∀ ev ∈ evs, ev.2.status ≠ ReqStatus.accepted) :
    runAcceptTriggers evs conns = Except.ok conns := by
  induction evs with
  | nil => rfl
  | cons ev evs ih =>
    have h1 : create_connection_on_accept (some ev.1) ev.2 conns = Except.ok conns := by
      unfold create_connection_on_accept
      rw [if_neg (fun hcon => h ev (List.mem_cons_self ev evs) hcon.1)]
    simp only [runAcceptTriggers]
    rw [h1]
    exact ih (fun e he => h e (List.mem_cons_of_mem _ he))

/-- The notification trigger emits nothing for a row whose new status is
rejected. -/
theorem notif_trigger_rejected (old : Option ConnectionRequest) (new : ConnectionRequest)
    (h : new.status = ReqStatus.rejected) :
    create_connection_request_notification old new = [] := by
  simp [create_connection_request_notification, h]

/-- The notification trigger emits nothing when a row is rewritten with
the status it already has: a retried resolve produces no duplicate. -/
theorem notif_trigger_same (new : ConnectionRequest) :
    create_connection_request_notification (some new) new = [] := by
  unfold create_connection_request_notification oldStatusNotPending oldStatusIsNullOrPending
  cases hst : new.status <;> simp [hst]

/-- The notification trigger emits nothing on an accepted row updated
while already accepted. -/
theorem notif_trigger_accepted_again (old new : ConnectionRequest)
    (hold : old.status = ReqStatus.accepted) (hnew : new.status = ReqStatus.accepted) :
    create_connection_request_notification (some old) new = [] := by
  simp [create_connection_request_notification, oldStatusNotPending,
    oldStatusIsNullOrPending, hold, hnew]

/-- Fan-out collects nothing when every per-row firing emits nothing. -/
theorem notifFanout_eq_nil (evs : List (ConnectionRequest × ConnectionRequest))
    (h : ∀ ev ∈ evs, create_connection_request_notification (some ev.1) ev.2 = []) :
    notifFanout evs = [] := by
  induction evs with
  | nil => rfl
  | cons ev evs ih =>
    unfold notifFanout
    rw [List.foldr_cons, h ev (List.mem_cons_self ev evs), List.nil_append]
    exact ih (fun e he => h e (List.mem_cons_of_mem _ he))

/-- The trigger insert of the canonical pair for distinct participants
succeeds and is exactly the ON CONFLICT DO NOTHING insert. -/
theorem insertConnection_ok (conns : List Connection) {s r : UserId} (hne : s ≠ r) :
    insertConnection conns (min s r) (max s r) = Except.ok (acceptConnections conns s r) := by
  unfold insertConnection acceptConnections
  rw [if_pos (min_lt_max.mpr hne)]
  by_cases h : (conns.any (fun c => c.user_id_1 == min s r && c.user_id_2 == max s r)) = true
  · rw [if_pos h, if_pos h]
  · rw [if_neg h, if_neg h]

/-- Under the UNIQUE(user_id_1, user_id_2) invariant, at most one stored
row matches a pair. -/
theorem count_pair_le_one (l : List Connection) (u1 u2 : UserId)
    (huniq : List.Pairwise pairDistinct l) :
    (l.filter (fun c => c.user_id_1 == u1 && c.user_id_2 == u2)).length ≤ 1 := by
  induction l with
  | nil => simp
  | cons c l ih =>
    rw [List.pairwise_cons] at huniq
    by_cases h : (c.user_id_1 == u1 && c.user_id_2 == u2) = true
    · rw [List.filter_cons, if_pos h]
      have hc : c.user_id_1 = u1 ∧ c.user_id_2 = u2 := by simpa using h
      have hrest : l.filter (fun c => c.user_id_1 == u1 && c.user_id_2 == u2) = [] := by
        rw [List.filter_eq_nil_iff]
        intro d hd hdp
        have hdc : d.user_id_1 = u1 ∧ d.user_id_2 = u2 := by simpa using hdp
        have hcd := huniq.1 d hd
        unfold pairDistinct at hcd
        rcases hcd with h1 | h2
        · exact h1 (hc.1.trans hdc.1.symm)
        · exact h2 (hc.2.trans hdc.2.symm)
      rw [hrest]
      simp
    · rw [List.filter_cons, if_neg h]
      exact ih huniq.2

/-- Under the uniqueness invariant, a stored matching pair makes the
count exactly one. -/
theorem count_pair_eq_one (l : List Connection) (u1 u2 : UserId)
    (huniq : List.Pairwise pairDistinct l)
    (hmem : ∃ c ∈ l, (c.user_id_1 == u1 && c.user_id_2 == u2) = true) :
    (l.filter (fun c => c.user_id_1 == u1 && c.user_id_2 == u2)).length = 1 := by
  obtain ⟨c, hc, hcp⟩ := hmem
  have hpos : 0 < (l.filter (fun c => c.user_id_1 == u1 && c.user_id_2 == u2)).length :=
    List.length_pos.mpr (List.ne_nil_of_mem (List.mem_filter.mpr ⟨hc, hcp⟩))
  have hle := count_pair_le_one l u1 u2 huniq
  omega

/-- After the absorbing insert, exactly one row stores the canonical
pair. -/
theorem acceptConnections_count (conns : List Connection) (s r : UserId)
    (huniq : List.Pairwise pairDistinct conns) :
    ((acceptConnections conns s r).filter
      (fun c => c.user_id_1 == min s r && c.user_id_2 == max s r)).length = 1 := by
  unfold acceptConnections
  by_cases h : (conns.any (fun c => c.user_id_1 == min s r && c.user_id_2 == max s r)) = true
  · rw [if_pos h]
    exact count_pair_eq_one conns (min s r) (max s r) huniq (by simpa using h)
  · rw [if_neg h]
    rw [List.filter_append]
    have h1 : conns.filter (fun c => c.user_id_1 == min s r && c.user_id_2 == max s r) = [] := by
      rw [List.filter_eq_nil_iff]
      intro d hd hdp
      exact h (List.any_eq_true.mpr ⟨d, hd, hdp⟩)
    rw [h1]
    simp

/-- Accepting a uniquely-identified pending request between distinct
users succeeds and produces exactly the characterized state: status
updated, canonical-pair connection inserted unless already present, one
acceptance notification to the sender. -/
theorem accept_resolves (db : DB) (req : ConnectionRequest) (reqId : Nat)
    (hrow : db.connection_requests.filter (fun r => decide (r.id = reqId)) = [req])
    (hpend : req.status = ReqStatus.pending)
    (hne : req.sender_id ≠ req.receiver_id) :
    updateRequestStatus db (some req.receiver_id) reqId ReqStatus.accepted =
      Except.ok (acceptedDb db req reqId) := by
  have htrig : create_connection_on_accept (some req)
      (ConnectionRequest.mk req.id req.sender_id req.receiver_id ReqStatus.accepted)
      db.connections =
      Except.ok (acceptConnections db.connections req.sender_id req.receiver_id) := by
    unfold create_connection_on_accept
    rw [if_pos ⟨rfl, by simp [oldStatusIsNullOrPending, hpend]⟩]
    exact insertConnection_ok db.connections hne
  have hrun : runAcceptTriggers
      [(req, ConnectionRequest.mk req.id req.sender_id req.receiver_id ReqStatus.accepted)]
      db.connections =
      Except.ok (acceptConnections db.connections req.sender_id req.receiver_id) := by
    simp only [runAcceptTriggers]
    rw [htrig]
  have hnotif : create_connection_request_notification (some req)
      (ConnectionRequest.mk req.id req.sender_id req.receiver_id ReqStatus.accepted) =
      [Notification.mk req.sender_id NotifType.connection_accepted req.id] := by
    simp [create_connection_request_notification, oldStatusNotPending,
      oldStatusIsNullOrPending, hpend]
  unfold updateRequestStatus
  rw [updateEvents_singleton ReqStatus.accepted hrow, hrun]
  unfold acceptedDb notifFanout
  rw [List.foldr_cons, List.foldr_nil, hnotif, List.append_nil]

/-- An accept re-applied to rows that are already accepted is a complete
no-op: same table, same connections, same notifications, no error. -/
theorem accept_idempotent (db : DB) (caller : Option UserId) (reqId : Nat)
    (hstatus : ∀ r ∈ db.connection_requests, requestMatches caller reqId r →
      r.status = ReqStatus.accepted) :
    updateRequestStatus db caller reqId ReqStatus.accepted = Except.ok db := by
  have hev := mem_updateEvents caller reqId ReqStatus.accepted db.connection_requests
  have hold : ∀ ev ∈ updateEvents caller reqId ReqStatus.accepted db.connection_requests,
      ev.1.status = ReqStatus.accepted := by
    intro ev h
    obtain ⟨h1, h2, _⟩ := hev ev h
    exact hstatus ev.1 h1 h2
  have hrun := runAcceptTriggers_ok_of_old_not_pending
    (updateEvents caller reqId ReqStatus.accepted db.connection_requests) db.connections
    (fun ev h => by rw [hold ev h]; decide)
  have hfan : notifFanout (updateEvents caller reqId ReqStatus.accepted db.connection_requests)
      = [] := by
    apply notifFanout_eq_nil
    intro ev h
    obtain ⟨_, _, h3⟩ := hev ev h
    exact notif_trigger_accepted_again ev.1 ev.2 (hold ev h) (by rw [h3])
  have hupd := updatedRequests_id caller reqId ReqStatus.accepted db.connection_requests hstatus
  unfold updateRequestStatus
  rw [hrun, hupd, hfan, List.append_nil]

/-- Claim C2 counterexample: the schema admits a pending self-request
(sender = receiver), and accepting it raises a CHECK violation (the
canonical pair degenerates, violating user_id_1 < user_id_2) instead of
creating a connection. -/
theorem self_accept_errors_counterexample :
    updateRequestStatus selfDb (some 5) 10 ReqStatus.accepted =
      Except.error SqlError.checkViolation ∧
    ConnectionRequest.mk 10 5 5 ReqStatus.pending ∈ selfDb.connection_requests :=
  ⟨rfl, by decide⟩

/-- Claim C2, amended with the hypothesis sender NE receiver: accepting a pending request
between distinct users succeeds, leaves exactly one connection row
storing the canonically ordered pair, and a second accept of the same
request is a silent no-op returning the unchanged state. -/
theorem accept_creates_single_connection (db : DB) (req : ConnectionRequest) (reqId : Nat)
    (hrow : db.connection_requests.filter (fun r => decide (r.id = reqId)) = [req])
    (hpend : req.status = ReqStatus.pending)
    (hne : req.sender_id ≠ req.receiver_id)
    (huniq : List.Pairwise pairDistinct db.connections) :
    updateRequestStatus db (some req.receiver_id) reqId ReqStatus.accepted =
      Except.ok (acceptedDb db req reqId) ∧
    ((acceptedDb db req reqId).connections.filter
      (fun c => c.user_id_1 == min req.sender_id req.receiver_id &&
        c.user_id_2 == max req.sender_id req.receiver_id)).length = 1 ∧
    updateRequestStatus (acceptedDb db req reqId) (some req.receiver_id) reqId
      ReqStatus.accepted = Except.ok (acceptedDb db req reqId) := by
  refine ⟨accept_resolves db req reqId hrow hpend hne, ?_, ?_⟩
  · exact acceptConnections_count db.connections req.sender_id req.receiver_id huniq
  · apply accept_idempotent
    intro r hr hm
    exact updatedRequests_match_status (some req.receiver_id) reqId ReqStatus.accepted
      db.connection_requests r hr hm

/-- Witness for the amended claim C2 at a concrete state: user 1 accepts the
pending request 20 from user 2; exactly one connection (1, 2) exists, and
repeating the accept changes nothing. -/
theorem accept_creates_single_connection_witness :
    updateRequestStatus c2Db (some 1) 20 ReqStatus.accepted =
      Except.ok (acceptedDb c2Db (ConnectionRequest.mk 20 2 1 ReqStatus.pending) 20) ∧
    ((acceptedDb c2Db (ConnectionRequest.mk 20 2 1 ReqStatus.pending) 20).connections.filter
      (fun c => c.user_id_1 == min 2 1 && c.user_id_2 == max 2 1)).length = 1 ∧
    updateRequestStatus (acceptedDb c2Db (ConnectionRequest.mk 20 2 1 ReqStatus.pending) 20)
      (some 1) 20 ReqStatus.accepted =
      Except.ok (acceptedDb c2Db (ConnectionRequest.mk 20 2 1 ReqStatus.pending) 20) :=
  accept_creates_single_connection c2Db (ConnectionRequest.mk 20 2 1 ReqStatus.pending) 20
    (by decide) rfl (by decide) (by decide)

/-- Claim C3 counterexample: request 11 is already accepted (resolved), yet its
receiver (user 2) moves it back to pending — the update succeeds, the
status changes, and a fresh connection_request notification is even
emitted.  Resolved states are not terminal. -/
theorem resolved_request_mutated_counterexample :
    updateRequestStatus c3Db (some 2) 11 ReqStatus.pending =
      Except.ok (DB.mk [] [] [ConnectionRequest.mk 11 1 2 ReqStatus.pending] []
        [Notification.mk 2 NotifType.connection_request 11]) ∧
    ConnectionRequest.mk 11 1 2 ReqStatus.accepted ∈ c3Db.connection_requests :=
  ⟨rfl, by decide⟩

/-- Claim C3, amended: the data layer enforces only the receiver-side of the
claim — an update issued by anyone who is not the receiver of the
addressed row is a complete no-op (row-level security filters it out);
nothing prevents the receiver from changing a resolved status again. -/
theorem non_receiver_update_noop (db : DB) (caller : Option UserId) (reqId : Nat)
    (st : ReqStatus)
    (h : ∀ r ∈ db.connection_requests, r.id = reqId → caller ≠ some r.receiver_id) :
    updateRequestStatus db caller reqId st = Except.ok db := by
  have hnm : ∀ r ∈ db.connection_requests, ¬ requestMatches caller reqId r := by
    intro r hr hm
    exact h r hr hm.1 hm.2
  have hev : updateEvents caller reqId st db.connection_requests = [] := by
    unfold updateEvents
    rw [List.filter_eq_nil_iff.mpr (fun r hr => by simpa using hnm r hr)]
    rfl
  have hupd : updatedRequests caller reqId st db.connection_requests =
      db.connection_requests := by
    unfold updatedRequests
    have hcong : ∀ r ∈ db.connection_requests,
        (if requestMatches caller reqId r then
          ConnectionRequest.mk r.id r.sender_id r.receiver_id st else r) = r :=
      fun r hr => if_neg (hnm r hr)
    rw [List.map_congr_left hcong]
    exact List.map_id db.connection_requests
  unfold updateRequestStatus
  rw [hev, hupd]
  simp only [runAcceptTriggers, notifFanout, List.foldr_nil, List.append_nil]

/-- Witness for the amended claim C3 at a concrete state: the sender (user 1)
cannot modify the accepted request addressed to user 2. -/
theorem non_receiver_update_noop_witness :
    updateRequestStatus c3Db (some 1) 11 ReqStatus.pending = Except.ok c3Db :=
  non_receiver_update_noop c3Db (some 1) 11 ReqStatus.pending (by decide)

/-- Claim C7: resolving any request with decision reject never touches the
connections table and never touches the notifications table (in
particular it enqueues no connection_accepted notification), and each
policy-visible matching row ends with status rejected. -/
theorem reject_no_connection_no_accept_notification (db : DB) (caller : Option UserId)
    (reqId : Nat) :
    updateRequestStatus db caller reqId ReqStatus.rejected =
      Except.ok (DB.mk db.profiles db.user_locations
        (updatedRequests caller reqId ReqStatus.rejected db.connection_requests)
        db.connections db.notifications) ∧
    ∀ r ∈ db.connection_requests, requestMatches caller reqId r →
      ConnectionRequest.mk r.id r.sender_id r.receiver_id ReqStatus.rejected ∈
        updatedRequests caller reqId ReqStatus.rejected db.connection_requests := by
  constructor
  · have hev := mem_updateEvents caller reqId ReqStatus.rejected db.connection_requests
    have hrun := runAcceptTriggers_ok_of_new_not_accepted
      (updateEvents caller reqId ReqStatus.rejected db.connection_requests) db.connections
      (fun ev h => by rw [(hev ev h).2.2]; simp)
    have hfan : notifFanout (updateEvents caller reqId ReqStatus.rejected
        db.connection_requests) = [] := by
      apply notifFanout_eq_nil
      intro ev h
      exact notif_trigger_rejected (some ev.1) ev.2 (by rw [(hev ev h).2.2])
    unfold updateRequestStatus
    rw [hrun, hfan, List.append_nil]
  · intro r hr hm
    unfold updatedRequests
    have hmem := List.mem_map_of_mem (fun r => if requestMatches caller reqId r then
      ConnectionRequest.mk r.id r.sender_id r.receiver_id ReqStatus.rejected else r) hr
    dsimp only at hmem
    rw [if_pos hm] at hmem
    exact hmem

/-- Witness for claim C7 at a concrete state: rejecting request 20 leaves
connections and notifications untouched. -/
theorem reject_no_connection_witness :
    updateRequestStatus c2Db (some 1) 20 ReqStatus.rejected =
      Except.ok (DB.mk c2Db.profiles c2Db.user_locations
        (updatedRequests (some 1) 20 ReqStatus.rejected c2Db.connection_requests)
        c2Db.connections c2Db.notifications) :=
  (reject_no_connection_no_accept_notification c2Db (some 1) 20).1

/-- Claim C6: a second createRequest for an ordered pair that already has a row
fails with the unique violation (SQLSTATE 23505) and the client handler
maps exactly that error to the dedicated already-requested outcome,
leaving the state unchanged; successful inserts preserve the
at-most-one-row-per-ordered-pair invariant; and the already-requested
outcome is distinguishable from the generic error outcome. -/
theorem duplicate_request_distinct_conflict (db : DB) (s r : UserId) (rid : Nat)
    (st : ReqStatus) :
    ((∃ q ∈ db.connection_requests, q.sender_id = s ∧ q.receiver_id = r) →
      createRequest db (some s) rid s r st = Except.error SqlError.uniqueViolation ∧
      handleSendConnectionRequest db s rid r = (SendOutcome.alreadyRequested, db)) ∧
    (List.Pairwise reqPairDistinct db.connection_requests →
      ∀ db2, createRequest db (some s) rid s r st = Except.ok db2 →
      List.Pairwise reqPairDistinct db2.connection_requests) ∧
    SendOutcome.alreadyRequested ≠ SendOutcome.genericError := by
  refine ⟨?_, ?_, by decide⟩
  · intro hex
    have herrAny : ∀ st2, createRequest db (some s) rid s r st2 =
        Except.error SqlError.uniqueViolation := by
      intro st2
      obtain ⟨q, hq, h1, h2⟩ := hex
      have hany : (db.connection_requests.any
          (fun q => q.sender_id == s && q.receiver_id == r)) = true :=
        List.any_eq_true.mpr ⟨q, hq, by simp [h1, h2]⟩
      unfold createRequest
      rw [if_pos rfl]
      by_cases hid : (db.connection_requests.any (fun q => q.id == rid)) = true
      · rw [if_pos hid]
      · rw [if_neg hid, if_pos hany]
    refine ⟨herrAny st, ?_⟩
    unfold handleSendConnectionRequest
    rw [herrAny ReqStatus.pending]
  · intro huniq db2 hok
    unfold createRequest at hok
    rw [if_pos rfl] at hok
    by_cases hid : (db.connection_requests.any (fun q => q.id == rid)) = true
    · rw [if_pos hid] at hok
      cases hok
    · rw [if_neg hid] at hok
      by_cases hpair : (db.connection_requests.any
          (fun q => q.sender_id == s && q.receiver_id == r)) = true
      · rw [if_pos hpair] at hok
        cases hok
      · rw [if_neg hpair] at hok
        have hnone : ∀ q ∈ db.connection_requests, ¬(q.sender_id = s ∧ q.receiver_id = r) := by
          intro q hq hc
          exact hpair (List.any_eq_true.mpr ⟨q, hq, by simp [hc.1, hc.2]⟩)
        obtain rfl := (Except.ok.inj hok).symm
        show List.Pairwise reqPairDistinct
          (db.connection_requests ++ [ConnectionRequest.mk rid s r st])
        rw [List.pairwise_append]
        refine ⟨huniq, by simp, ?_⟩
        intro a ha b hb
        rw [List.mem_singleton] at hb
        subst hb
        intro hc
        exact hnone a ha ⟨hc.1, hc.2⟩

/-- Witness for claim C6 at a concrete state: re-sending the existing 1 to 2
request yields the unique violation and the already-requested outcome. -/
theorem duplicate_request_distinct_conflict_witness :
    createRequest c6Db (some 1) 31 1 2 ReqStatus.pending =
      Except.error SqlError.uniqueViolation ∧
    handleSendConnectionRequest c6Db 1 31 2 = (SendOutcome.alreadyRequested, c6Db) :=
  (duplicate_request_distinct_conflict c6Db 1 2 31 ReqStatus.pending).1
    ⟨ConnectionRequest.mk 30 1 2 ReqStatus.pending, by decide, rfl, rfl⟩

/-- Claim C5: the notification trigger emits exactly one connection_request
notification to the receiver on a transition into pending, exactly one
connection_accepted notification to the sender on a transition from
pending into accepted, and nothing when a row is rewritten with the
status it already has (idempotent retries); the INSERT path appends
exactly the one receiver notification. -/
theorem notification_per_transition (old : Option ConnectionRequest) (new : ConnectionRequest)
    (db : DB) (rid : Nat) (s r : UserId) (db2 : DB) :
    (new.status = ReqStatus.pending → oldStatusNotPending old = true →
      create_connection_request_notification old new =
        [Notification.mk new.receiver_id NotifType.connection_request new.id]) ∧
    (new.status = ReqStatus.accepted → oldStatusIsNullOrPending old = true →
      create_connection_request_notification old new =
        [Notification.mk new.sender_id NotifType.connection_accepted new.id]) ∧
    create_connection_request_notification (some new) new = [] ∧
    (createRequest db (some s) rid s r ReqStatus.pending = Except.ok db2 →
      db2.notifications = db.notifications ++
        [Notification.mk r NotifType.connection_request rid]) := by
  refine ⟨?_, ?_, notif_trigger_same new, ?_⟩
  · intro h1 h2
    have hng : ¬(new.status = ReqStatus.accepted ∧ oldStatusIsNullOrPending old = true) := by
      intro hcon
      rw [h1] at hcon
      exact absurd hcon.1 (by decide)
    unfold create_connection_request_notification
    rw [if_pos ⟨h1, h2⟩, if_neg hng, List.append_nil]
  · intro h1 h2
    have hng : ¬(new.status = ReqStatus.pending ∧ oldStatusNotPending old = true) := by
      intro hcon
      rw [h1] at hcon
      exact absurd hcon.1 (by decide)
    unfold create_connection_request_notification
    rw [if_neg hng, if_pos ⟨h1, h2⟩, List.nil_append]
  · intro hok
    unfold createRequest at hok
    rw [if_pos rfl] at hok
    by_cases hid : (db.connection_requests.any (fun q => q.id == rid)) = true
    · rw [if_pos hid] at hok
      cases hok
    · rw [if_neg hid] at hok
      by_cases hpair : (db.connection_requests.any
          (fun q => q.sender_id == s && q.receiver_id == r)) = true
      · rw [if_pos hpair] at hok
        cases hok
      · rw [if_neg hpair] at hok
        obtain rfl := (Except.ok.inj hok).symm
        show db.notifications ++ create_connection_request_notification none
            (ConnectionRequest.mk rid s r ReqStatus.pending) =
          db.notifications ++ [Notification.mk r NotifType.connection_request rid]
        have ht : create_connection_request_notification none
            (ConnectionRequest.mk rid s r ReqStatus.pending) =
            [Notification.mk r NotifType.connection_request rid] := by
          unfold create_connection_request_notification oldStatusNotPending
            oldStatusIsNullOrPending
          simp
        rw [ht]

/-- Witness for claim C5 at a concrete transition: rejected to pending emits
exactly the receiver notification. -/
theorem notification_per_transition_witness :
    create_connection_request_notification
      (some (ConnectionRequest.mk 40 1 2 ReqStatus.rejected))
      (ConnectionRequest.mk 40 1 2 ReqStatus.pending) =
      [Notification.mk 2 NotifType.connection_request 40] :=
  (notification_per_transition (some (ConnectionRequest.mk 40 1 2 ReqStatus.rejected))
    (ConnectionRequest.mk 40 1 2 ReqStatus.pending) db0 0 0 0 db0).1 rfl (by decide)

end NearbyConnect
